import Mathlib

/-!
Verification development for the `node-btc-trace` REST-to-JSON-RPC gateway.

The definitions below are a shallow embedding of the JavaScript sources:

* `src/utils/generals.js` — the hex-suffix decimal codec (`getHexSuffixDecimals`);
* `src/services/blockchain.js`, `src/services/util.js` — endpoint handlers
  (Joi validation, JSON-RPC payload construction, response envelopes);
* `src/errors/axios.js` (`parseAxiosError`) and
  `src/errors/errorResponseHandler.js` — error classification and the error
  response middleware.

JavaScript `BigInt` values are modelled as `Nat` (arbitrary precision, as in
JS); fallible JS code (a thrown exception) is modelled with `Option`.
-/

namespace BtcTrace

/-! ## JSON values

JSON-RPC payload parameters and response bodies are heterogeneous JSON
values; numbers appearing in the modelled code paths are integers. -/

inductive Json where
  | null : Json
  | bool (b : Bool) : Json
  | num (n : Int) : Json
  | str (s : String) : Json
  | arr (xs : List Json) : Json
  | obj (fields : List (String × Json)) : Json

/-- JS property access `v.k` on a parsed JSON value (first field wins). -/
def Json.getField : Json → String → Option Json
  | .obj fields, k => fields.lookup k
  | _, _ => none

/-- JS truthiness of a JSON value (`null`, `false`, `0` and `""` are falsy). -/
def Json.truthy : Json → Bool
  | .null => false
  | .bool b => b
  | .num n => !(n == 0)
  | .str s => !(s == "")
  | .arr _ => true
  | .obj _ => true

/-! ## Hex-suffix decimal codec — `src/utils/generals.js`, `getHexSuffixDecimals` -/

/-- Value of one hexadecimal digit, case-insensitive; `none` for a non-hex
character (where JS `BigInt` parsing throws a `SyntaxError`). -/
def hexDigitVal (c : Char) : Option Nat :=
  if '0' ≤ c ∧ c ≤ '9' then some (c.toNat - '0'.toNat)
  else if 'a' ≤ c ∧ c ≤ 'f' then some (c.toNat - 'a'.toNat + 10)
  else if 'A' ≤ c ∧ c ≤ 'F' then some (c.toNat - 'A'.toNat + 10)
  else none

def isHexDigit (c : Char) : Bool := (hexDigitVal c).isSome

def parseHexCore : List Char → Nat → Option Nat
  | [], acc => some acc
  | c :: cs, acc =>
    match hexDigitVal c with
    | none => none
    | some d => parseHexCore cs (16 * acc + d)

/-- JS `BigInt('0x' + s)`: the base-16 unsigned value of `s`, or `none`
(a thrown `SyntaxError`) when `s` is empty or has a non-hex character. -/
def parseHexNat (s : String) : Option Nat :=
  if s.data.isEmpty then none else parseHexCore s.data 0

/-- Reference base-16 value of a string of hex digits (used to state what the
codec's decimal strings denote; meaningful on all-hex inputs). -/
def hexValue (s : String) : Nat :=
  s.data.foldl (fun a c => 16 * a + (hexDigitVal c).getD 0) 0

/-- JS `s.slice(-len)` for `len ≥ 1`: the last `len` characters of `s`, or all
of `s` when `len ≥ s.length` (suffix extraction saturates, no padding). -/
def sliceLast (s : String) (len : Nat) : String :=
  ⟨s.data.drop (s.data.length - len)⟩

/-- The `suffixLengths` table of `getHexSuffixDecimals`: symbolic range label
(`uN` for `N` bits) paired with the suffix length in hex characters. -/
def suffixLengths : List (String × Nat) :=
  [("u4", 1), ("u8", 2), ("u12", 3), ("u16", 4),
   ("u20", 5), ("u24", 6), ("u28", 7), ("u32", 8),
   ("u36", 9), ("u40", 10), ("u44", 11), ("u48", 12),
   ("u52", 13), ("u56", 14), ("u60", 15), ("u64", 16)]

/-- The range label under which the suffix of `i` hex characters (`4*i` bits)
is stored in the codec's output. -/
def suffixKey (i : Nat) : String := "u" ++ toString (4 * i)

def buildDecimals (hexHash : String) : List (String × Nat) → Option (List (String × String))
  | [] => some []
  | rl :: rest =>
    match parseHexNat (sliceLast hexHash rl.2) with
    | none => none
    | some v => (buildDecimals hexHash rest).map fun ds => (rl.1, toString v) :: ds

/-- `getHexSuffixDecimals` from `src/utils/generals.js`: for each entry of
`suffixLengths`, `decimals[range] = BigInt('0x' + hexHash.slice(-len)).toString()`.
`none` models the JS function throwing (empty or non-hex slice). -/
def getHexSuffixDecimals (hexHash : String) : Option (List (String × String)) :=
  buildDecimals hexHash suffixLengths

/-! ## Joi validation model

Each endpoint declares a `Joi.object` schema and calls `schema.validate(input)`
with Joi default options. The per-endpoint `...Violations` functions below
enumerate, in Joi evaluation order (schema key order, then rule chain order),
the constraints the input violates. Joi `validate` with default options has
`abortEarly: true`, so the returned `error.details` holds only the first
failure; `joiDetails` models that. -/

inductive JoiMsg where
  | required (key : String)
  | notNumber (key : String)
  | numMin (key : String) (limit : Int)
  | numMax (key : String) (limit : Int)
  | oneOf (key : String) (vals : List Int)
  | strLength (key : String) (limit : Nat)
  | patternMismatch (key : String) (idx : Nat)
  | arrMin (key : String) (limit : Nat)
  | arrMax (key : String) (limit : Nat)
deriving DecidableEq, Repr

/-- The English message Joi attaches to each violated constraint
(`error.details[k].message`). -/
def JoiMsg.render : JoiMsg → String
  | .required k => "\"" ++ k ++ "\" is required"
  | .notNumber k => "\"" ++ k ++ "\" must be a number"
  | .numMin k n => "\"" ++ k ++ "\" must be greater than or equal to " ++ toString n
  | .numMax k n => "\"" ++ k ++ "\" must be less than or equal to " ++ toString n
  | .oneOf k vs => "\"" ++ k ++ "\" must be one of " ++ toString vs
  | .strLength k n => "\"" ++ k ++ "\" length must be " ++ toString n ++ " characters long"
  | .patternMismatch k i =>
      "\"" ++ k ++ "[" ++ toString i ++ "]\" fails to match the required pattern"
  | .arrMin k n => "\"" ++ k ++ "\" must contain at least " ++ toString n ++ " items"
  | .arrMax k n => "\"" ++ k ++ "\" must contain less than or equal to " ++ toString n ++ " items"

/-- Joi `validate` with default options (`abortEarly: true`): `error.details`
carries only the first of the violated constraints. -/
def joiDetails (violations : List JoiMsg) : List JoiMsg :=
  violations.take 1

def decDigitsVal (l : List Char) : Nat :=
  l.foldl (fun a c => 10 * a + (c.toNat - '0'.toNat)) 0

/-- Numeric coercion `Joi.number()` applies to a raw query string, restricted
to the integral values the modelled endpoints accept. A string that is not an
optionally-signed decimal numeral is rejected by the constraint chain of every
modelled numeric field (`number()` for non-numeric strings, `valid(0,1,2)` or
`integer()` for non-integral ones), so both rejections are modelled as `none`. -/
def jsToNumber (s : String) : Option Int :=
  match s.data with
  | [] => none
  | '-' :: rest =>
      if !rest.isEmpty && rest.all Char.isDigit then some (-(decDigitsVal rest : Int)) else none
  | l => if l.all Char.isDigit then some ((decDigitsVal l : Nat) : Int) else none

/-! ## Error data — `src/errors/ApiError.js`, `src/errors/httpErrorCodes.js` -/

/-- `ApiError(status, code, message, details = null)` from `src/errors/ApiError.js`.
`message` and `details` are JSON values (JS lets both be any value); `stack`
is the JS `Error.stack` string, only ever surfaced in development mode. -/
structure ApiError where
  status : Nat
  code : String
  message : Json
  details : Json := Json.null
  stack : String := ""

/-- Modelled from the spec: `src/errors/httpErrorCodes.js` is absent from the
sources (only its importers are present). The spec describes every classified
error as carrying a short code per numeric status; the standard HTTP reason
codes are used. No claim depends on the exact strings. -/
def HTTP_ERR_CODES (status : Nat) : String :=
  if status == 400 then "BAD_REQUEST"
  else if status == 500 then "INTERNAL_SERVER_ERROR"
  else if status == 502 then "BAD_GATEWAY"
  else if status == 503 then "SERVICE_UNAVAILABLE"
  else if status == 504 then "GATEWAY_TIMEOUT"
  else "UNKNOWN"

/-! ## Error classification — `parseAxiosError` (`src/errors/axios.js`) -/

/-- The shapes of an axios rejection distinguished by `parseAxiosError`:
an upstream HTTP error response (`error.response` set), a timeout
(`error.code === ECONNABORTED`), a request that got no response at all
(`error.request` set — connection refused / unreachable), or anything else. -/
inductive AxiosError where
  | response (status : Nat) (data : Json) (message : String)
  | timeout (message : String)
  | noResponse
  | other (message : String)

/-- `parseAxiosError(error, fallbackStatus = 502)`. JS `x || y` on the
response status (a number, falsy iff 0/undefined) and on JSON values is
modelled with `0` checks and `Json.truthy`. -/
def parseAxiosError (e : AxiosError) (fallbackStatus : Nat) : ApiError :=
  match e with
  | .response status data message =>
      { status := if status == 0 then fallbackStatus else status
        code := "REMOTE_" ++ toString status
        message :=
          if ((data.getField "error").getD Json.null).truthy then
            (data.getField "error").getD Json.null
          else Json.str message
        details := if data.truthy then data else Json.null }
  | .timeout message =>
      { status := 504, code := HTTP_ERR_CODES 504
        message := Json.str "Request timed out", details := Json.str message }
  | .noResponse =>
      { status := 503, code := HTTP_ERR_CODES 503
        message := Json.str "No response from remote server" }
  | .other message =>
      { status := fallbackStatus, code := HTTP_ERR_CODES 502, message := Json.str message }

/-! ## Response envelope and error middleware -/

structure HttpResponse where
  status : Nat
  body : Json

/-- `res.status(200).json({success: true, data: d})`. -/
def successEnvelope (d : Json) : Json :=
  Json.obj [("success", Json.bool true), ("data", d)]

/-- `info.data.result`. JS property access on an absent key yields `undefined`;
modelled as `Json.null` (the claims only feed bodies carrying a `result`). -/
def resultField (body : Json) : Json :=
  (body.getField "result").getD Json.null

/-- `errorResponseHandler` from `src/errors/errorResponseHandler.js`:
`status = err.status || 500`, body
`{success: false, error: {status, code: err.code || HTTP_ERR_CODES[500],
message: err.message || Internal Server Error, details: err.details || null}}`,
with `error.stack` added only when `NODE_ENV === development`. -/
def errorResponseHandler (isDevelopment : Bool) (err : ApiError) : HttpResponse :=
  let status := if err.status == 0 then 500 else err.status
  let base :=
    [("status", Json.num (status : Int)),
     ("code", Json.str (if err.code == "" then HTTP_ERR_CODES 500 else err.code)),
     ("message", if err.message.truthy then err.message else Json.str "Internal Server Error"),
     ("details", if err.details.truthy then err.details else Json.null)]
  let errFields := if isDevelopment then base ++ [("stack", Json.str err.stack)] else base
  ⟨status, Json.obj [("success", Json.bool false), ("error", Json.obj errFields)]⟩

/-! ## Endpoint handlers

A handler receives its raw request values (path/query values as
`Option String`, body values typed by JSON parsing), plus the upstream node
modelled as a function from the posted JSON-RPC payload to the parsed 2xx
response body. It returns `Except ApiError HttpResponse` (a thrown `ApiError`
on the left) paired with the list of upstream POSTs it performed, in order.
`runRoute` composes a handler with the error middleware, as
`express-async-handler` forwards a rejection to `errorResponseHandler`. -/

/-- JSON-RPC 1.0 request body `{jsonrpc, id, method, params}`. -/
structure RpcPayload where
  jsonrpc : String
  id : String
  method : String
  params : List Json

def runRoute (isDevelopment : Bool) :
    Except ApiError HttpResponse × List RpcPayload → HttpResponse × List RpcPayload
  | (Except.ok r, calls) => (r, calls)
  | (Except.error e, calls) => (errorResponseHandler isDevelopment e, calls)

/-- The `ApiError` a handler throws on validation failure:
`new ApiError(400, HTTP_ERR_CODES[400], message, error.details.map(d => d.message))`. -/
def validationApiError (message : String) (details : List JoiMsg) : ApiError :=
  { status := 400, code := HTTP_ERR_CODES 400, message := Json.str message
    details := Json.arr (details.map fun d => Json.str d.render) }

/-- `getChainInfo` (`src/services/blockchain.js`): posts `getblockchaininfo`
and responds `{success: true, data: info.data}` — the data value is the whole
parsed upstream body, not `info.data.result`. -/
def getChainInfo (upstream : RpcPayload → Json) :
    Except ApiError HttpResponse × List RpcPayload :=
  let payload : RpcPayload := ⟨"1.0", "curltest", "getblockchaininfo", []⟩
  let info := upstream payload
  (Except.ok ⟨200, successEnvelope info⟩, [payload])

/-- Violations of the `getBlock` schema
`{blockhash: Joi.string().length(64).required(), verbosity: Joi.number().valid(0,1,2).optional()}`
in Joi evaluation order. -/
def getBlockViolations (blockhash verbosity : Option String) : List JoiMsg :=
  (match blockhash with
   | none => [JoiMsg.required "blockhash"]
   | some s => if s.length == 64 then [] else [JoiMsg.strLength "blockhash" 64])
  ++ (match verbosity with
      | none => []
      | some s =>
        match jsToNumber s with
        | none => [JoiMsg.notNumber "verbosity"]
        | some n => if n == 0 || n == 1 || n == 2 then [] else [JoiMsg.oneOf "verbosity" [0, 1, 2]])

/-- `getBlock` (`src/services/blockchain.js`): validates, throws on failure,
otherwise destructures `{blockhash, verbosity = 1}` and posts
`{jsonrpc: 1.0, id: curltest, method: getblock, params: [blockhash, verbosity]}`,
responding `{success: true, data: info.data.result}`. -/
def getBlock (blockhash verbosity : Option String) (upstream : RpcPayload → Json) :
    Except ApiError HttpResponse × List RpcPayload :=
  match getBlockViolations blockhash verbosity with
  | v :: vs =>
      (Except.error (validationApiError "request validation failed" (joiDetails (v :: vs))), [])
  | [] =>
      let bh := blockhash.getD ""
      let verb : Int := (verbosity.bind jsToNumber).getD 1
      let payload : RpcPayload := ⟨"1.0", "curltest", "getblock", [Json.str bh, Json.num verb]⟩
      let info := upstream payload
      (Except.ok ⟨200, successEnvelope (resultField info)⟩, [payload])

/-- `const \x7b verbose = true \x7d = req.query; verbose === false_lit ? false : true`
in `getBlockHeader`: the literal string `false` maps to `false`; absence (the
`true` default) and every other string map to `true`. -/
def coerceVerboseDefaultTrue (q : Option String) : Bool :=
  match q with
  | none => true
  | some s => if s == "false" then false else true

/-- Violations of the `getBlockHeader` schema. The `verbose` field is coerced
to an actual boolean before validation, so `Joi.boolean().optional()` on it
never fails; only `blockhash` can violate. -/
def getBlockHeaderViolations (blockhash : Option String) : List JoiMsg :=
  match blockhash with
  | none => [JoiMsg.required "blockhash"]
  | some s => if s.length == 64 then [] else [JoiMsg.strLength "blockhash" 64]

/-- `getBlockHeader` (`src/services/blockchain.js`): posts `getblockheader`
with `params: [blockhash, verbose]` and responds with the parsed result. -/
def getBlockHeader (blockhash verbose : Option String) (upstream : RpcPayload → Json) :
    Except ApiError HttpResponse × List RpcPayload :=
  match getBlockHeaderViolations blockhash with
  | v :: vs =>
      (Except.error (validationApiError "request validation failed" (joiDetails (v :: vs))), [])
  | [] =>
      let payload : RpcPayload :=
        ⟨"1.0", "curltest", "getblockheader",
         [Json.str (blockhash.getD ""), Json.bool (coerceVerboseDefaultTrue verbose)]⟩
      let info := upstream payload
      (Except.ok ⟨200, successEnvelope (resultField info)⟩, [payload])

/-- `const \x7b verbose = false \x7d = req.query;` then
`verbose === true_lit || verbose === true` in `getRawMempool`: the literal
string `true` maps to `true`; absence (the `false` default) and every other
string map to `false`. -/
def coerceVerboseDefaultFalse (q : Option String) : Bool :=
  match q with
  | none => false
  | some s => s == "true"

/-- `getRawMempool` (`src/services/blockchain.js`): the schema
`{verbose: Joi.boolean().optional()}` is applied to the already-coerced
boolean, so validation never fails; posts `getrawmempool` with
`params: [verbose]`. -/
def getRawMempool (verbose : Option String) (upstream : RpcPayload → Json) :
    Except ApiError HttpResponse × List RpcPayload :=
  let payload : RpcPayload :=
    ⟨"1.0", "curltest", "getrawmempool", [Json.bool (coerceVerboseDefaultFalse verbose)]⟩
  let info := upstream payload
  (Except.ok ⟨200, successEnvelope (resultField info)⟩, [payload])

/-- The `createMultisig` key pattern `([0-9a-fA-F]{66}|[0-9a-fA-F]{130})`:
a 66- or 130-character hex string. -/
def isPubKeyHex (s : String) : Bool :=
  (s.length == 66 || s.length == 130) && s.data.all isHexDigit

/-- Violations of the `createMultisig` schema
`{nRequired: Joi.number().integer().min(1).max(20).required(), keys: Joi.array().items(pattern).min(2).max(20).required()}`
in Joi evaluation order. The body arrives as parsed JSON, so `nRequired` is
already a number and `keys` already an array of strings on the typed paths
modelled here. -/
def createMultisigViolations (nRequired : Option Int) (keys : Option (List String)) :
    List JoiMsg :=
  (match nRequired with
   | none => [JoiMsg.required "nRequired"]
   | some n =>
     (if n < 1 then [JoiMsg.numMin "nRequired" 1] else [])
       ++ (if 20 < n then [JoiMsg.numMax "nRequired" 20] else []))
  ++ (match keys with
      | none => [JoiMsg.required "keys"]
      | some ks =>
        (ks.enum.filterMap fun p =>
          if isPubKeyHex p.2 then none else some (JoiMsg.patternMismatch "keys" p.1))
          ++ (if ks.length < 2 then [JoiMsg.arrMin "keys" 2] else [])
          ++ (if 20 < ks.length then [JoiMsg.arrMax "keys" 20] else []))

/-- `createMultisig` (`src/services/util.js`): validates the body, throws on
failure, otherwise posts `createmultisig` with `params: [nRequired, keys]`. -/
def createMultisig (nRequired : Option Int) (keys : Option (List String))
    (upstream : RpcPayload → Json) :
    Except ApiError HttpResponse × List RpcPayload :=
  match createMultisigViolations nRequired keys with
  | v :: vs =>
      (Except.error (validationApiError "Request validation failed" (joiDetails (v :: vs))), [])
  | [] =>
      let payload : RpcPayload :=
        ⟨"1.0", "curltest", "createmultisig",
         [Json.num (nRequired.getD 0), Json.arr ((keys.getD []).map Json.str)]⟩
      let info := upstream payload
      (Except.ok ⟨200, successEnvelope (resultField info)⟩, [payload])

/-- The post-upstream step of `getBlockHashDecimals`
(`src/services/blockchain.js`): the `getblockhash` result string is fed to
`getHexSuffixDecimals` with no validation. `none` models the handler throwing
(the codec raised on an empty or non-hex slice) instead of producing a
response. -/
def getBlockHashDecimalsRespond (hexHash : String) : Option HttpResponse :=
  (getHexSuffixDecimals hexHash).map fun ds =>
    ⟨200, successEnvelope (Json.obj
      [("hash", Json.str hexHash),
       ("decimals", Json.obj (ds.map fun p => (p.1, Json.str p.2)))])⟩

/-- The `details` array of the error object of a response, as a client sees it. -/
def errorField (r : HttpResponse) (k : String) : Option Json :=
  (r.body.getField "error").bind fun e => e.getField k

/-! ## Support lemmas about the codec -/

theorem parseHexCore_all_hex (l : List Char) (hall : l.all isHexDigit = true) :
    ∀ acc, parseHexCore l acc =
      some (l.foldl (fun a c => 16 * a + (hexDigitVal c).getD 0) acc) := by
  induction l with
  | nil => intro acc; rfl
  | cons c cs ih =>
    intro acc
    rw [List.all_cons, Bool.and_eq_true] at hall
    obtain ⟨d, hd⟩ : ∃ d, hexDigitVal c = some d := by
      have hc := hall.1
      unfold isHexDigit at hc
      exact Option.isSome_iff_exists.mp hc
    simp [parseHexCore, hd, ih hall.2]

theorem parseHexNat_all_hex (s : String) (hne : s.data ≠ [])
    (hall : s.data.all isHexDigit = true) : parseHexNat s = some (hexValue s) := by
  have hemp : s.data.isEmpty = false := by
    cases hh : s.data with
    | nil => exact absurd hh hne
    | cons a t => rfl
  simp [parseHexNat, hemp, parseHexCore_all_hex s.data hall 0, hexValue]

theorem sliceLast_all {p : Char → Bool} (s : String) (len : Nat)
    (hall : s.data.all p = true) : (sliceLast s len).data.all p = true := by
  rw [List.all_eq_true] at hall ⊢
  intro x hx
  exact hall x (List.drop_subset _ _ hx)

theorem sliceLast_ne_nil (s : String) (len : Nat) (hs : s.data ≠ []) (hl : 1 ≤ len) :
    (sliceLast s len).data ≠ [] := by
  have h0 : 0 < s.data.length := List.length_pos.mpr hs
  intro hnil
  have hlen : (s.data.drop (s.data.length - len)).length = 0 := by
    rw [show s.data.drop (s.data.length - len) = (sliceLast s len).data from rfl, hnil]
    rfl
  rw [List.length_drop] at hlen
  omega

theorem buildDecimals_all_hex (s : String) (hne : s.data ≠ [])
    (hall : s.data.all isHexDigit = true) :
    ∀ tbl : List (String × Nat), (∀ rl ∈ tbl, 1 ≤ rl.2) →
      buildDecimals s tbl =
        some (tbl.map fun rl => (rl.1, toString (hexValue (sliceLast s rl.2)))) := by
  intro tbl
  induction tbl with
  | nil => intro _; rfl
  | cons rl rest ih =>
    intro hpos
    have h1 : parseHexNat (sliceLast s rl.2) = some (hexValue (sliceLast s rl.2)) :=
      parseHexNat_all_hex _ (sliceLast_ne_nil s rl.2 hne (hpos rl (List.mem_cons_self rl rest)))
        (sliceLast_all s rl.2 hall)
    have h2 := ih fun x hx => hpos x (List.mem_cons_of_mem rl hx)
    simp [buildDecimals, h1, h2]

theorem getHexSuffixDecimals_all_hex (s : String) (hne : s.data ≠ [])
    (hall : s.data.all isHexDigit = true) :
    getHexSuffixDecimals s =
      some (suffixLengths.map fun rl => (rl.1, toString (hexValue (sliceLast s rl.2)))) :=
  buildDecimals_all_hex s hne hall suffixLengths (by decide)

theorem lookup_suffixKey (h : String) (i : Nat) (h1 : 1 ≤ i) (h16 : i ≤ 16) :
    (suffixLengths.map fun rl => (rl.1, toString (hexValue (sliceLast h rl.2)))).lookup
      (suffixKey i) = some (toString (hexValue (sliceLast h i))) := by
  interval_cases i <;> rfl

theorem parseHexCore_none_of_mem (l : List Char) (c : Char) (hc : c ∈ l)
    (hbad : hexDigitVal c = none) : ∀ acc, parseHexCore l acc = none := by
  induction l with
  | nil => cases hc
  | cons a t ih =>
    intro acc
    cases ha : hexDigitVal a with
    | none => simp [parseHexCore, ha]
    | some d =>
      rcases List.mem_cons.mp hc with h | h
      · subst h; rw [ha] at hbad; cases hbad
      · simp [parseHexCore, ha, ih h]

theorem parseHexNat_none_of_mem (s : String) (c : Char) (hc : c ∈ s.data)
    (hbad : hexDigitVal c = none) : parseHexNat s = none := by
  have hemp : s.data.isEmpty = false := by
    cases hh : s.data with
    | nil => rw [hh] at hc; cases hc
    | cons a t => rfl
  simp [parseHexNat, hemp, parseHexCore_none_of_mem s.data c hc hbad 0]

theorem buildDecimals_none (s : String) (rl : String × Nat)
    (hfail : parseHexNat (sliceLast s rl.2) = none) :
    ∀ tbl : List (String × Nat), rl ∈ tbl → buildDecimals s tbl = none := by
  intro tbl
  induction tbl with
  | nil => intro hmem; cases hmem
  | cons a t ih =>
    intro hmem
    rcases List.mem_cons.mp hmem with h | h
    · subst h; simp [buildDecimals, hfail]
    · cases hp : parseHexNat (sliceLast s a.2) with
      | none => simp [buildDecimals, hp]
      | some v => simp [buildDecimals, hp, ih h]

/-! ## Claims about the codec -/

/-- C1: for every hex string `h` of length ≥ 1 and every `i` in
`1..min(16, len(h))`, the output of `getHexSuffixDecimals h` holds, under the
label for `4*i` bits, the exact decimal string of the last `i` characters of
`h` read as a base-16 unsigned integer (arbitrary precision, no loss). -/
theorem C1_suffix_decimal_exact (h : String) (i : Nat)
    (hhex : h.data.all isHexDigit = true) (h1 : 1 ≤ i) (h2 : i ≤ min 16 h.length) :
    ∃ ds, getHexSuffixDecimals h = some ds ∧ (sliceLast h i).length = i ∧
      ds.lookup (suffixKey i) = some (toString (hexValue (sliceLast h i))) := by
  have hi16 : i ≤ 16 := le_trans h2 (Nat.min_le_left _ _)
  have hiL : i ≤ h.data.length := le_trans h2 (Nat.min_le_right _ _)
  have hne : h.data ≠ [] := by
    intro hnil
    rw [hnil] at hiL
    simp at hiL
    omega
  refine ⟨_, getHexSuffixDecimals_all_hex h hne hhex, ?_, lookup_suffixKey h i h1 hi16⟩
  show (h.data.drop (h.data.length - i)).length = i
  rw [List.length_drop]
  omega

/-- C1 witness: the spec scenario — hash `d7c8f4` at suffix length 3 decodes
to the decimal string of `8f4`, that is `2292`. -/
theorem C1_suffix_decimal_exact_witness :
    ("d7c8f4".data.all isHexDigit = true ∧ 1 ≤ 3 ∧ 3 ≤ min 16 "d7c8f4".length) ∧
    (∃ ds, getHexSuffixDecimals "d7c8f4" = some ds ∧ (sliceLast "d7c8f4" 3).length = 3 ∧
      ds.lookup (suffixKey 3) = some (toString (hexValue (sliceLast "d7c8f4" 3)))) :=
  ⟨⟨by decide, by decide, by decide⟩,
   C1_suffix_decimal_exact "d7c8f4" 3 (by decide) (by decide) (by decide)⟩

/-- C2 counterexample: for `h = "a"` (length 1 < 16) the codec still produces
an entry for suffix length 2 (label `u8`), refuting «no entry for any suffix
length greater than len(h)». -/
theorem C2_counterexample :
    "a".length = 1 ∧
    (getHexSuffixDecimals "a").bind (fun ds => ds.lookup (suffixKey 2)) = some "10" :=
  ⟨rfl, rfl⟩

/-- C2 amended: for a hex string `h` with `1 ≤ len(h) < 16` the codec produces
an entry for every suffix length `1..16` (not only `1..len(h)`); for
`i ≥ len(h)` the slice saturates to the whole string, so the entry is the
decimal of `h` itself — the input is never padded. -/
theorem C2_entries_saturate (h : String) (i : Nat)
    (hhex : h.data.all isHexDigit = true) (hlen : 1 ≤ h.length) (hlt : h.length < 16)
    (hi1 : 1 ≤ i) (hi16 : i ≤ 16) :
    ∃ ds, getHexSuffixDecimals h = some ds ∧ (ds.lookup (suffixKey i)).isSome = true ∧
      (h.length ≤ i → ds.lookup (suffixKey i) = some (toString (hexValue h))) := by
  have hne : h.data ≠ [] := by
    intro hnil
    have : h.length = 0 := by rw [show h.length = h.data.length from rfl, hnil]; rfl
    omega
  refine ⟨_, getHexSuffixDecimals_all_hex h hne hhex, ?_, ?_⟩
  · rw [lookup_suffixKey h i hi1 hi16]; rfl
  · intro hle
    have hLL : h.data.length ≤ i := le_trans (le_of_eq rfl) hle
    have hslice : sliceLast h i = h := by
      show (⟨h.data.drop (h.data.length - i)⟩ : String) = h
      rw [show h.data.length - i = 0 from by omega, List.drop_zero]
    rw [lookup_suffixKey h i hi1 hi16, hslice]

/-- C2 amended witness: `h = "a"`, `i = 2`: the entry exists and equals the
decimal of the whole (unpadded) string. -/
theorem C2_entries_saturate_witness :
    ("a".data.all isHexDigit = true ∧ 1 ≤ "a".length ∧ "a".length < 16 ∧ 1 ≤ 2 ∧ 2 ≤ 16) ∧
    (∃ ds, getHexSuffixDecimals "a" = some ds ∧ (ds.lookup (suffixKey 2)).isSome = true ∧
      ("a".length ≤ 2 → ds.lookup (suffixKey 2) = some (toString (hexValue "a")))) :=
  ⟨⟨by decide, by decide, by decide, by decide, by decide⟩,
   C2_entries_saturate "a" 2 (by decide) (by decide) (by decide) (by decide) (by decide)⟩

/-- C10: the codec is not total — it throws on the empty string instead of
returning a mapping — and for any upstream `getblockhash` result with a
non-hex character among its last 16 characters (in particular any fully
non-hex result) the unvalidated `getBlockHashDecimals` feed makes the handler
throw (`none`) instead of producing a codec output. -/
theorem C10_codec_partial_unvalidated (s : String) (c : Char)
    (hc : c ∈ (sliceLast s 16).data) (hbad : isHexDigit c = false) :
    getHexSuffixDecimals "" = none ∧ getBlockHashDecimalsRespond "" = none ∧
    getHexSuffixDecimals s = none ∧ getBlockHashDecimalsRespond s = none := by
  have hnone : hexDigitVal c = none := by
    cases hdv : hexDigitVal c with
    | none => rfl
    | some d => unfold isHexDigit at hbad; rw [hdv] at hbad; cases hbad
  have h1 : parseHexNat (sliceLast s 16) = none := parseHexNat_none_of_mem _ c hc hnone
  have h2 : getHexSuffixDecimals s = none :=
    buildDecimals_none s ("u64", 16) h1 suffixLengths (by decide)
  refine ⟨rfl, rfl, h2, ?_⟩
  simp [getBlockHashDecimalsRespond, h2]

/-- C10 witness: the non-hex upstream result `"zz"` makes the codec and the
handler fail. -/
theorem C10_codec_partial_unvalidated_witness :
    ('z' ∈ (sliceLast "zz" 16).data ∧ isHexDigit 'z' = false) ∧
    (getHexSuffixDecimals "" = none ∧ getBlockHashDecimalsRespond "" = none ∧
     getHexSuffixDecimals "zz" = none ∧ getBlockHashDecimalsRespond "zz" = none) :=
  ⟨⟨by decide, by decide⟩,
   C10_codec_partial_unvalidated "zz" 'z' (by decide) (by decide)⟩

/-! ## Claims about validation, forwarding and error envelopes -/

/-- A validation `ApiError`, run through the error middleware, yields a 400
response whose `error.details` array carries exactly the rendered messages
the handler put in the error. Shared by several claims below. -/
theorem validation_route (msg : String) (ds : List JoiMsg) (calls : List RpcPayload) :
    (runRoute false (Except.error (validationApiError msg ds), calls)).1.status = 400 ∧
    errorField (runRoute false (Except.error (validationApiError msg ds), calls)).1 "details" =
      some (Json.arr (ds.map fun d => Json.str d.render)) :=
  ⟨rfl, rfl⟩

/-- C3 counterexample: a `getBlock` request violating two constraints (a
2-character `blockhash` and `verbosity = 7`) produces a `ValidationError`
whose details carry only the first violated constraint message — the
`verbosity` message, a different string, is absent. -/
theorem C3_counterexample :
    getBlockViolations (some "ab") (some "7") =
      [JoiMsg.strLength "blockhash" 64, JoiMsg.oneOf "verbosity" [0, 1, 2]] ∧
    errorField (runRoute false (getBlock (some "ab") (some "7") fun _ => Json.null)).1 "details" =
      some (Json.arr [Json.str (JoiMsg.strLength "blockhash" 64).render]) ∧
    (JoiMsg.oneOf "verbosity" [0, 1, 2]).render ≠ (JoiMsg.strLength "blockhash" 64).render :=
  ⟨rfl, rfl, by decide⟩

/-- C3 amended: on any validation failure the `ValidationError` carries the
rendered message of the first violated constraint only (Joi `validate` is run
with default options, whose `abortEarly: true` stops at the first failure),
inside a 400 response. -/
theorem C3_first_violation_only (blockhash verbosity : Option String)
    (upstream : RpcPayload → Json) (v : JoiMsg) (vs : List JoiMsg)
    (hv : getBlockViolations blockhash verbosity = v :: vs) :
    (runRoute false (getBlock blockhash verbosity upstream)).1.status = 400 ∧
    errorField (runRoute false (getBlock blockhash verbosity upstream)).1 "details" =
      some (Json.arr [Json.str v.render]) := by
  have hgb : getBlock blockhash verbosity upstream =
      (Except.error (validationApiError "request validation failed" (joiDetails (v :: vs))), []) := by
    unfold getBlock; rw [hv]
  rw [hgb]
  exact ⟨(validation_route _ _ _).1, (validation_route _ _ _).2⟩

/-- C3 amended witness: the doubly-invalid request of the counterexample. -/
theorem C3_first_violation_only_witness :
    (getBlockViolations (some "ab") (some "7") =
      [JoiMsg.strLength "blockhash" 64, JoiMsg.oneOf "verbosity" [0, 1, 2]]) ∧
    ((runRoute false (getBlock (some "ab") (some "7") fun _ => Json.null)).1.status = 400 ∧
     errorField (runRoute false (getBlock (some "ab") (some "7") fun _ => Json.null)).1 "details" =
       some (Json.arr [Json.str (JoiMsg.strLength "blockhash" 64).render])) :=
  ⟨rfl, C3_first_violation_only (some "ab") (some "7") (fun _ => Json.null)
    (JoiMsg.strLength "blockhash" 64) [JoiMsg.oneOf "verbosity" [0, 1, 2]] rfl⟩

/-- C4 counterexample: on a well-formed JSON-RPC envelope with `result = 7`,
`getChainInfo` responds with `data` equal to the whole envelope
(`info.data`), not to the parsed `result` field. -/
theorem C4_counterexample :
    (runRoute false (getChainInfo fun _ =>
      Json.obj [("result", Json.num 7), ("error", Json.null), ("id", Json.str "curltest")])).1.body.getField
        "data" =
      some (Json.obj [("result", Json.num 7), ("error", Json.null), ("id", Json.str "curltest")]) ∧
    Json.obj [("result", Json.num 7), ("error", Json.null), ("id", Json.str "curltest")] ≠ Json.num 7 :=
  ⟨rfl, fun hcon => Json.noConfusion hcon⟩

/-- C4 amended: on an upstream 2xx body carrying a `result` field, the
handlers respond `{success: true, data: ...}` where `data` is the parsed
`result` for `getBlock`, `getBlockHeader` and `getRawMempool` (as for the
other result-projecting handlers), while `getChainInfo` (like
`getGetBestblockhash`) sets `data` to the whole parsed envelope. -/
theorem C4_data_projection (bh : String) (hbh : bh.length = 64) (body r : Json)
    (hres : body.getField "result" = some r) :
    (runRoute false (getBlock (some bh) none fun _ => body)).1.body = successEnvelope r ∧
    (runRoute false (getBlockHeader (some bh) none fun _ => body)).1.body = successEnvelope r ∧
    (runRoute false (getRawMempool none fun _ => body)).1.body = successEnvelope r ∧
    (runRoute false (getChainInfo fun _ => body)).1.body = successEnvelope body := by
  have hviol : getBlockViolations (some bh) none = [] := by
    simp [getBlockViolations, hbh]
  have hviol2 : getBlockHeaderViolations (some bh) = [] := by
    simp [getBlockHeaderViolations, hbh]
  have hr : resultField body = r := by simp [resultField, hres]
  refine ⟨?_, ?_, ?_, rfl⟩
  · unfold getBlock; rw [hviol]; simp [runRoute, hr]
  · unfold getBlockHeader; rw [hviol2]; simp [runRoute, hr]
  · simp [getRawMempool, runRoute, hr]

/-- C4 amended witness: a 64-character hash and an envelope with `result = 5`. -/
theorem C4_data_projection_witness :
    ("0000000000000000000000000000000000000000000000000000000000000000".length = 64 ∧
     (Json.obj [("result", Json.num 5)]).getField "result" = some (Json.num 5)) ∧
    (runRoute false (getChainInfo fun _ => Json.obj [("result", Json.num 5)])).1.body =
      successEnvelope (Json.obj [("result", Json.num 5)]) :=
  ⟨⟨by decide, rfl⟩,
   (C4_data_projection "0000000000000000000000000000000000000000000000000000000000000000"
      (by decide) (Json.obj [("result", Json.num 5)]) (Json.num 5) rfl).2.2.2⟩

/-- C5: a request that got no response at all (connection refused) is
classified 503, a timeout (`ECONNABORTED`) 504, an upstream HTTP error
response passes the upstream status through, and every classified failure,
run through the error middleware, yields a body with `success: false` and an
`error` object carrying `status`, `code`, `message` and `details`. -/
theorem C5_failure_classification (isDev : Bool) (e : AxiosError)
    (s : Nat) (d : Json) (m t : String) (hs : s ≠ 0) :
    (errorResponseHandler isDev (parseAxiosError AxiosError.noResponse 502)).status = 503 ∧
    (errorResponseHandler isDev (parseAxiosError (AxiosError.timeout t) 502)).status = 504 ∧
    (errorResponseHandler isDev (parseAxiosError (AxiosError.response s d m) 502)).status = s ∧
    (errorResponseHandler isDev (parseAxiosError e 502)).body.getField "success" =
      some (Json.bool false) ∧
    (errorField (errorResponseHandler isDev (parseAxiosError e 502)) "status").isSome = true ∧
    (errorField (errorResponseHandler isDev (parseAxiosError e 502)) "code").isSome = true ∧
    (errorField (errorResponseHandler isDev (parseAxiosError e 502)) "message").isSome = true ∧
    (errorField (errorResponseHandler isDev (parseAxiosError e 502)) "details").isSome = true := by
  have hb : (s == 0) = false := by simpa using hs
  refine ⟨rfl, rfl, ?_, ?_, ?_, ?_, ?_, ?_⟩
  · simp [errorResponseHandler, parseAxiosError, hb]
  · cases e <;> rfl
  · cases e <;> cases isDev <;> rfl
  · cases e <;> cases isDev <;> rfl
  · cases e <;> cases isDev <;> rfl
  · cases e <;> cases isDev <;> rfl

/-- C5 witness: a connection-refused failure and an upstream 500, outside
development mode. -/
theorem C5_failure_classification_witness :
    ((500 : Nat) ≠ 0) ∧
    ((errorResponseHandler false (parseAxiosError AxiosError.noResponse 502)).status = 503 ∧
     (errorResponseHandler false (parseAxiosError (AxiosError.timeout "") 502)).status = 504 ∧
     (errorResponseHandler false (parseAxiosError (AxiosError.response 500 Json.null "") 502)).status = 500 ∧
     (errorResponseHandler false (parseAxiosError AxiosError.noResponse 502)).body.getField "success" =
       some (Json.bool false) ∧
     (errorField (errorResponseHandler false (parseAxiosError AxiosError.noResponse 502)) "status").isSome = true ∧
     (errorField (errorResponseHandler false (parseAxiosError AxiosError.noResponse 502)) "code").isSome = true ∧
     (errorField (errorResponseHandler false (parseAxiosError AxiosError.noResponse 502)) "message").isSome = true ∧
     (errorField (errorResponseHandler false (parseAxiosError AxiosError.noResponse 502)) "details").isSome = true) :=
  ⟨by decide, C5_failure_classification false AxiosError.noResponse 500 Json.null "" "" (by decide)⟩

/-- C6: for the boolean query parameters, the literal string `false` coerces
to `false` and the literal string `true` to `true`; absence and every other
string resolve to the endpoint default — `true` for the `verbose` of
`getBlockHeader`, `false` for the `verbose` of `getRawMempool` — as seen in
the forwarded JSON-RPC params. -/
theorem C6_boolean_query_coercion (bh : String) (hbh : bh.length = 64)
    (s t : String) (hsf : s ≠ "false") (htt : t ≠ "true") (upstream : RpcPayload → Json) :
    (getBlockHeader (some bh) (some "false") upstream).2 =
      [⟨"1.0", "curltest", "getblockheader", [Json.str bh, Json.bool false]⟩] ∧
    (getBlockHeader (some bh) (some "true") upstream).2 =
      [⟨"1.0", "curltest", "getblockheader", [Json.str bh, Json.bool true]⟩] ∧
    (getBlockHeader (some bh) (some s) upstream).2 =
      [⟨"1.0", "curltest", "getblockheader", [Json.str bh, Json.bool true]⟩] ∧
    (getBlockHeader (some bh) none upstream).2 =
      [⟨"1.0", "curltest", "getblockheader", [Json.str bh, Json.bool true]⟩] ∧
    (getRawMempool (some "true") upstream).2 =
      [⟨"1.0", "curltest", "getrawmempool", [Json.bool true]⟩] ∧
    (getRawMempool (some "false") upstream).2 =
      [⟨"1.0", "curltest", "getrawmempool", [Json.bool false]⟩] ∧
    (getRawMempool (some t) upstream).2 =
      [⟨"1.0", "curltest", "getrawmempool", [Json.bool false]⟩] ∧
    (getRawMempool none upstream).2 =
      [⟨"1.0", "curltest", "getrawmempool", [Json.bool false]⟩] := by
  have hviol : getBlockHeaderViolations (some bh) = [] := by
    simp [getBlockHeaderViolations, hbh]
  have hb1 : (s == "false") = false := by simpa using hsf
  have hb2 : (t == "true") = false := by simpa using htt
  refine ⟨?_, ?_, ?_, ?_, ?_, ?_, ?_, ?_⟩
  · unfold getBlockHeader; rw [hviol]; rfl
  · unfold getBlockHeader; rw [hviol]; rfl
  · unfold getBlockHeader; rw [hviol]; simp [coerceVerboseDefaultTrue, hb1]
  · unfold getBlockHeader; rw [hviol]; rfl
  · rfl
  · rfl
  · simp [getRawMempool, coerceVerboseDefaultFalse, hb2]
  · rfl

/-- C6 witness: the strings `1` (for `getBlockHeader`) and `no` (for
`getRawMempool`) fall back to the endpoint defaults. -/
theorem C6_boolean_query_coercion_witness :
    ("0000000000000000000000000000000000000000000000000000000000000000".length = 64 ∧
     ("1" : String) ≠ "false" ∧ ("no" : String) ≠ "true") ∧
    ((getBlockHeader (some "0000000000000000000000000000000000000000000000000000000000000000")
        (some "1") fun _ => Json.null).2 =
      [⟨"1.0", "curltest", "getblockheader",
        [Json.str "0000000000000000000000000000000000000000000000000000000000000000",
         Json.bool true]⟩]) :=
  ⟨⟨by decide, by decide, by decide⟩,
   (C6_boolean_query_coercion
      "0000000000000000000000000000000000000000000000000000000000000000"
      (by decide) "1" "no" (by decide) (by decide) (fun _ => Json.null)).2.2.1⟩

/-- C7: a `getBlock` request with a valid 64-character hex hash and no
verbosity parameter forwards exactly one upstream payload,
`{jsonrpc: 1.0, id: curltest, method: getblock, params: [hash, 1]}`, and
responds `{success: true, data: <upstream result>}`. -/
theorem C7_getblock_forwarding (bh : String) (hlen : bh.length = 64)
    (hhex : bh.data.all isHexDigit = true) (body r : Json)
    (hres : body.getField "result" = some r) :
    runRoute false (getBlock (some bh) none fun _ => body) =
      (⟨200, successEnvelope r⟩, [⟨"1.0", "curltest", "getblock", [Json.str bh, Json.num 1]⟩]) := by
  have hviol : getBlockViolations (some bh) none = [] := by
    simp [getBlockViolations, hlen]
  have hr : resultField body = r := by simp [resultField, hres]
  unfold getBlock; rw [hviol]
  simp [runRoute, hr]

/-- C7 witness: an all-zero 64-character hash and an envelope whose result is
the string `blk`. -/
theorem C7_getblock_forwarding_witness :
    ("0000000000000000000000000000000000000000000000000000000000000000".length = 64 ∧
     "0000000000000000000000000000000000000000000000000000000000000000".data.all isHexDigit = true ∧
     (Json.obj [("result", Json.str "blk")]).getField "result" = some (Json.str "blk")) ∧
    runRoute false (getBlock (some "0000000000000000000000000000000000000000000000000000000000000000")
        none fun _ => Json.obj [("result", Json.str "blk")]) =
      (⟨200, successEnvelope (Json.str "blk")⟩,
       [⟨"1.0", "curltest", "getblock",
         [Json.str "0000000000000000000000000000000000000000000000000000000000000000",
          Json.num 1]⟩]) :=
  ⟨⟨by decide, by decide, rfl⟩,
   C7_getblock_forwarding "0000000000000000000000000000000000000000000000000000000000000000"
     (by decide) (by decide) (Json.obj [("result", Json.str "blk")]) (Json.str "blk") rfl⟩

/-- C8: a `createMultisig` request with `nRequired = 25` (over the max of 20)
is rejected with a 400 response and the handler performs no upstream call at
all, whatever the keys are. -/
theorem C8_multisig_rejected_before_upstream (keys : Option (List String))
    (upstream : RpcPayload → Json) :
    (runRoute false (createMultisig (some 25) keys upstream)).1.status = 400 ∧
    (runRoute false (createMultisig (some 25) keys upstream)).2 = [] := by
  have hne : createMultisigViolations (some 25) keys ≠ [] := by
    cases keys <;> simp [createMultisigViolations]
  cases hv : createMultisigViolations (some 25) keys with
  | nil => exact absurd hv hne
  | cons v vs =>
    have hcm : createMultisig (some 25) keys upstream =
        (Except.error (validationApiError "Request validation failed" (joiDetails (v :: vs))), []) := by
      unfold createMultisig; rw [hv]
    rw [hcm]
    exact ⟨(validation_route _ _ _).1, rfl⟩

/-- C9: where a 64-character hash is required, a 63- or 65-character input
fails validation with the length-violation message reported, under a 400
response, and no upstream call is made — nothing is truncated or padded and
forwarded. -/
theorem C9_hash_length_strict (s : String) (hlen : s.length = 63 ∨ s.length = 65)
    (verbosity : Option String) (upstream : RpcPayload → Json) :
    (runRoute false (getBlock (some s) verbosity upstream)).2 = [] ∧
    (runRoute false (getBlock (some s) verbosity upstream)).1.status = 400 ∧
    errorField (runRoute false (getBlock (some s) verbosity upstream)).1 "details" =
      some (Json.arr [Json.str (JoiMsg.strLength "blockhash" 64).render]) := by
  have hne64 : (s.length == 64) = false := by
    rcases hlen with h | h <;> simp [h]
  obtain ⟨rest, hv⟩ : ∃ rest,
      getBlockViolations (some s) verbosity = JoiMsg.strLength "blockhash" 64 :: rest := by
    simp [getBlockViolations, hne64]
  have hgb : getBlock (some s) verbosity upstream =
      (Except.error (validationApiError "request validation failed"
        (joiDetails (JoiMsg.strLength "blockhash" 64 :: rest))), []) := by
    unfold getBlock; rw [hv]
  rw [hgb]
  exact ⟨rfl, (validation_route _ _ _).1, (validation_route _ _ _).2⟩

/-- C9 witness: a 63-character string. -/
theorem C9_hash_length_strict_witness :
    ("000000000000000000000000000000000000000000000000000000000000000".length = 63 ∨
     "000000000000000000000000000000000000000000000000000000000000000".length = 65) ∧
    ((runRoute false (getBlock (some "000000000000000000000000000000000000000000000000000000000000000")
        none fun _ => Json.null)).2 = [] ∧
     (runRoute false (getBlock (some "000000000000000000000000000000000000000000000000000000000000000")
        none fun _ => Json.null)).1.status = 400 ∧
     errorField (runRoute false (getBlock (some "000000000000000000000000000000000000000000000000000000000000000")
        none fun _ => Json.null)).1 "details" =
       some (Json.arr [Json.str (JoiMsg.strLength "blockhash" 64).render])) :=
  ⟨Or.inl (by decide),
   C9_hash_length_strict "000000000000000000000000000000000000000000000000000000000000000"
     (Or.inl (by decide)) none (fun _ => Json.null)⟩

end BtcTrace
